import Mathlib

/-!
Verification of the financial metrics and valuation computation engine
(`backend/app/metrics/compute.py`, `backend/app/valuation/core.py`,
`backend/app/valuation/service.py`, `backend/app/nlp/fourm/service.py`).

Conventions of the shallow embedding:
* Python `float` values are modelled as exact reals (`ℝ`) in the CAGR/growth
  engine, where the fractional power `**` forces real exponentiation, and as
  rationals (`ℚ`) in the scoring/valuation functions, whose arithmetic is
  field arithmetic plus comparisons.
* Python `None` is `Option.none`; a value that may be absent is an `Option`.
* Python's `ZeroDivisionError` is modelled by `Except String`: `pydiv`
  returns `Except.error "ZeroDivisionError"` exactly when the denominator is
  zero, as CPython does for `float` division.
* Python truthiness on an optional float (`a or b`, `not x`) treats both
  `None` and `0.0` as falsy; the helpers `pyOrR`/`pyOrQ` model `a or b`.
* Rows fetched from the SQL store are passed in explicitly as lists of
  records, preserving ascending fiscal-year order as the store guarantees.
-/

/-- Embedding of `cagr` (metrics/compute.py): guarded compound annual growth
rate; `None` unless both endpoints are present and positive and the span is
positive. -/
noncomputable def cagr (first last : Option ℝ) (years : ℤ) : Option ℝ :=
  match first, last with
  | some f, some l =>
      if years ≤ 0 ∨ f ≤ 0 ∨ l ≤ 0 then none
      else some ((l / f) ^ ((1 : ℝ) / (years : ℝ)) - 1)
  | _, _ => none

/-- Embedding of the `next(...)` generator scan in `_calculate_window_cagr`
that finds the earliest index whose year is inside the window and whose value
is not `None`. -/
def findFirstIdx (years : List ℤ) (values : List (Option ℝ)) (firstYear : ℤ) :
    Option ℕ :=
  (List.range years.length).find?
    (fun i => decide (firstYear ≤ years.getD i 0) && (values.getD i none).isSome)

/-- Embedding of the reversed `next(...)` scan in `_calculate_window_cagr`
that finds the latest index whose year is at most the last year and whose
value is not `None`. -/
def findLastIdx (years : List ℤ) (values : List (Option ℝ)) (lastYear : ℤ) :
    Option ℕ :=
  ((List.range years.length).reverse).find?
    (fun i => decide (years.getD i 0 ≤ lastYear) && (values.getD i none).isSome)

/-- Embedding of `_calculate_window_cagr` (metrics/compute.py): sliding-window
CAGR with fallback to the earliest available data inside the window. -/
noncomputable def calculate_window_cagr (years : List ℤ)
    (values : List (Option ℝ)) (window_years : ℤ) : Option ℝ :=
  if years.length = 0 ∨ values.length = 0 ∨ years.length ≠ values.length then
    none
  else
    match findFirstIdx years values
            (max (years.getD 0 0)
              (years.getD (years.length - 1) 0 - (window_years - 1))),
          findLastIdx years values (years.getD (years.length - 1) 0) with
    | some i, some j =>
        if j ≤ i then none
        else if years.getD j 0 - years.getD i 0 ≤ 0 then none
        else cagr (values.getD i none) (values.getD j none)
               (years.getD j 0 - years.getD i 0)
    | _, _ => none

/-- Row of `_fetch_is_series` (metrics/compute.py): per-fiscal-year income
statement facts `(fy, revenue, eps_diluted, ebit)`. -/
structure IsRow where
  fy : ℤ
  revenue : Option ℝ
  eps_diluted : Option ℝ
  ebit : Option ℝ

/-- Result record of `compute_growth_metrics_extended`. -/
structure GrowthMetricsExt where
  rev_cagr_1y : Option ℝ
  rev_cagr_3y : Option ℝ
  rev_cagr_5y : Option ℝ
  rev_cagr_10y : Option ℝ
  eps_cagr_1y : Option ℝ
  eps_cagr_3y : Option ℝ
  eps_cagr_5y : Option ℝ
  eps_cagr_10y : Option ℝ

/-- Embedding of `compute_growth_metrics_extended` (metrics/compute.py),
parameterised by the fetched income-statement series. -/
noncomputable def compute_growth_metrics_extended (series : List IsRow) :
    GrowthMetricsExt :=
  if series.length < 2 then ⟨none, none, none, none, none, none, none, none⟩
  else
    let years := series.map (·.fy)
    let revs := series.map (·.revenue)
    let eps := series.map (·.eps_diluted)
    ⟨calculate_window_cagr years revs 1,
     calculate_window_cagr years revs 3,
     calculate_window_cagr years revs 5,
     calculate_window_cagr years revs 10,
     calculate_window_cagr years eps 1,
     calculate_window_cagr years eps 3,
     calculate_window_cagr years eps 5,
     calculate_window_cagr years eps 10⟩

theorem findFirstIdx_some_pred {years : List ℤ} {values : List (Option ℝ)}
    {fy : ℤ} {i : ℕ} (h : findFirstIdx years values fy = some i) :
    fy ≤ years.getD i 0 ∧ (values.getD i none).isSome = true := by
  have hp := List.find?_some h
  simpa using hp

theorem findLastIdx_some_pred {years : List ℤ} {values : List (Option ℝ)}
    {fy : ℤ} {i : ℕ} (h : findLastIdx years values fy = some i) :
    years.getD i 0 ≤ fy ∧ (values.getD i none).isSome = true := by
  have hp := List.find?_some h
  simpa using hp

theorem window1_none_aux (years : List ℤ) (values : List (Option ℝ)) :
    calculate_window_cagr years values 1 = none := by
  by_cases hg : years.length = 0 ∨ values.length = 0 ∨
      years.length ≠ values.length
  · rw [calculate_window_cagr, if_pos hg]
  · rw [calculate_window_cagr, if_neg hg]
    split
    · rename_i i j hfi hfj
      obtain ⟨h1, -⟩ := findFirstIdx_some_pred hfi
      obtain ⟨h2, -⟩ := findLastIdx_some_pred hfj
      have hmax : years.getD (years.length - 1) 0 - (1 - 1) ≤
          max (years.getD 0 0) (years.getD (years.length - 1) 0 - (1 - 1)) :=
        le_max_right _ _
      have hle := le_trans hmax h1
      by_cases hji : j ≤ i
      · rw [if_pos hji]
      · rw [if_neg hji, if_pos (by omega)]
    · rfl

/-- Claim C10: for every input series the 1-year windowed CAGR is `None`
(window 1 forces the window start and end years to coincide, so the span is
never positive); consequently `rev_cagr_1y` and `eps_cagr_1y` in
`compute_growth_metrics_extended` are `None` for every company. -/
theorem one_year_window_cagr_always_none :
    (∀ (years : List ℤ) (values : List (Option ℝ)),
        calculate_window_cagr years values 1 = none) ∧
    ∀ series : List IsRow,
        (compute_growth_metrics_extended series).rev_cagr_1y = none ∧
        (compute_growth_metrics_extended series).eps_cagr_1y = none := by
  refine ⟨window1_none_aux, fun series => ?_⟩
  by_cases h : series.length < 2
  · rw [compute_growth_metrics_extended, if_pos h]
    exact ⟨rfl, rfl⟩
  · rw [compute_growth_metrics_extended, if_neg h]
    exact ⟨window1_none_aux _ _, window1_none_aux _ _⟩

theorem getD_mem_of_lt {α : Type} (l : List α) (d : α) {i : ℕ}
    (h : i < l.length) : l.getD i d ∈ l := by
  rw [List.getD_eq_get? l i d, List.get?_eq_get h]
  exact List.get_mem l i h

theorem getD_eq_get {α : Type} (l : List α) (d : α) {i : ℕ}
    (h : i < l.length) : l.getD i d = l.get ⟨i, h⟩ := by
  rw [List.getD_eq_get? l i d, List.get?_eq_get h]
  rfl

theorem findFirstIdx_eq_zero {years : List ℤ} {values : List (Option ℝ)}
    {fy : ℤ} (h0 : 0 < years.length) (hy : fy ≤ years.getD 0 0)
    (hv : (values.getD 0 none).isSome = true) :
    findFirstIdx years values fy = some 0 := by
  obtain ⟨k, hk⟩ : ∃ k, years.length = k + 1 := ⟨years.length - 1, by omega⟩
  rw [findFirstIdx, hk, List.range_succ_eq_map,
    List.find?_cons_of_pos _
      (by simp only [Bool.and_eq_true, decide_eq_true_eq]; exact ⟨hy, hv⟩)]

theorem findLastIdx_eq_last {years : List ℤ} {values : List (Option ℝ)}
    {fy : ℤ} (h0 : 0 < years.length)
    (hy : years.getD (years.length - 1) 0 ≤ fy)
    (hv : (values.getD (years.length - 1) none).isSome = true) :
    findLastIdx years values fy = some (years.length - 1) := by
  obtain ⟨k, hk⟩ : ∃ k, years.length = k + 1 := ⟨years.length - 1, by omega⟩
  rw [hk] at hy hv
  simp only [Nat.add_sub_cancel] at hy hv
  rw [findLastIdx, hk, List.range_succ, List.reverse_append,
    List.reverse_singleton, List.singleton_append,
    List.find?_cons_of_pos _
      (by simp only [Bool.and_eq_true, decide_eq_true_eq]; exact ⟨hy, hv⟩)]
  norm_num

/-- Claim C7 (amended): for every strictly ascending year list whose total
span fits inside the 10-year window (`last_year - first_year ≤ 9`) and in
which every year has a non-`None` value (at least two records), the 10-year
windowed CAGR equals the direct CAGR over the first and last elements. -/
theorem window_cagr_full_coverage (years : List ℤ) (values : List (Option ℝ))
    (hlen : years.length = values.length) (h2 : 2 ≤ years.length)
    (hsorted : List.Pairwise (· < ·) years)
    (hall : ∀ v ∈ values, v.isSome = true)
    (hspan : years.getD (years.length - 1) 0 - years.getD 0 0 ≤ 9) :
    calculate_window_cagr years values 10 =
      cagr (values.getD 0 none) (values.getD (values.length - 1) none)
        (years.getD (years.length - 1) 0 - years.getD 0 0) := by
  have hg : ¬(years.length = 0 ∨ values.length = 0 ∨
      years.length ≠ values.length) := by omega
  rw [calculate_window_cagr, if_neg hg]
  have hmax : max (years.getD 0 0)
      (years.getD (years.length - 1) 0 - (10 - 1)) = years.getD 0 0 :=
    max_eq_left (by omega)
  have hfi : findFirstIdx years values
      (max (years.getD 0 0) (years.getD (years.length - 1) 0 - (10 - 1))) =
      some 0 := by
    rw [hmax]
    exact findFirstIdx_eq_zero (by omega) le_rfl
      (hall _ (getD_mem_of_lt values none (by omega)))
  have hfj : findLastIdx years values (years.getD (years.length - 1) 0) =
      some (years.length - 1) :=
    findLastIdx_eq_last (by omega) le_rfl
      (hall _ (getD_mem_of_lt values none (by omega)))
  rw [hfi, hfj]
  have hpos : 0 < years.getD (years.length - 1) 0 - years.getD 0 0 := by
    have hlt : years.get ⟨0, by omega⟩ <
        years.get ⟨years.length - 1, by omega⟩ :=
      List.pairwise_iff_get.mp hsorted ⟨0, by omega⟩
        ⟨years.length - 1, by omega⟩ (by simp; omega)
    rw [getD_eq_get years 0 (show 0 < years.length by omega),
      getD_eq_get years 0 (show years.length - 1 < years.length by omega)]
    omega
  have hj0 : ¬(years.length - 1 ≤ 0) := by omega
  dsimp only
  rw [if_neg hj0, if_neg (by omega), hlen]

/-- Witness for claim C7 (amended) at a concrete two-year series. -/
theorem window_cagr_full_coverage_witness :
    calculate_window_cagr [2020, 2021] [some 100, some 200] 10 =
      cagr (some 100) (some 200) 1 := by
  have h := window_cagr_full_coverage [2020, 2021] [some 100, some 200]
    (by simp) (by simp) (by simp) ?_ (by simp)
  · simpa using h
  · intro v hv
    simp at hv
    rcases hv with rfl | rfl <;> rfl

/-- Counterexample for claim C7 as stated: an 11-year fully populated series
whose span exceeds the 10-year window; the window start falls on the second
element, so the windowed CAGR differs from the direct CAGR over the first and
last elements. -/
theorem window_cagr_counterexample :
    calculate_window_cagr
        [2000, 2001, 2002, 2003, 2004, 2005, 2006, 2007, 2008, 2009, 2010]
        [some 1, some 1, some 1, some 1, some 1, some 1, some 1, some 1,
         some 1, some 1, some 2] 10 ≠
      cagr (some 1) (some 2) (2010 - 2000) := by
  have h1 : calculate_window_cagr
      [2000, 2001, 2002, 2003, 2004, 2005, 2006, 2007, 2008, 2009, 2010]
      [some 1, some 1, some 1, some 1, some 1, some 1, some 1, some 1,
       some 1, some 1, some 2] 10 = cagr (some 1) (some 2) 9 := rfl
  rw [h1]
  have h9 : cagr (some (1 : ℝ)) (some 2) 9 =
      some ((2 : ℝ) ^ ((1 : ℝ) / (9 : ℝ)) - 1) := by
    rw [cagr, if_neg (by norm_num)]
    norm_num
  have h10 : cagr (some (1 : ℝ)) (some 2) (2010 - 2000) =
      some ((2 : ℝ) ^ ((1 : ℝ) / (10 : ℝ)) - 1) := by
    rw [cagr, if_neg (by norm_num)]
    norm_num
  rw [h9, h10]
  intro h
  have heq : (2 : ℝ) ^ ((1 : ℝ) / (9 : ℝ)) =
      (2 : ℝ) ^ ((1 : ℝ) / (10 : ℝ)) := by
    have := Option.some.inj h
    linarith
  have hlt : (2 : ℝ) ^ ((1 : ℝ) / (10 : ℝ)) <
      (2 : ℝ) ^ ((1 : ℝ) / (9 : ℝ)) :=
    (Real.rpow_lt_rpow_left_iff (by norm_num)).mpr (by norm_num)
  rw [heq] at hlt
  exact lt_irrefl _ hlt

/-- Claim C8: `cagr first last years` returns `(last/first)^(1/years) - 1`
exactly when `first > 0`, `last > 0`, `years > 0` and neither endpoint is
`None`, and returns `None` in every other case; in particular
`cagr 100 100 n = 0` for every `n > 0`. -/
theorem cagr_characterization (f l : ℝ) (y : ℤ) :
    (0 < f → 0 < l → 0 < y →
      cagr (some f) (some l) y = some ((l / f) ^ ((1 : ℝ) / (y : ℝ)) - 1)) ∧
    ((f ≤ 0 ∨ l ≤ 0 ∨ y ≤ 0) → cagr (some f) (some l) y = none) ∧
    cagr none (some l) y = none ∧
    cagr (some f) none y = none ∧
    cagr none none y = none ∧
    (0 < y → cagr (some 100) (some 100) y = some 0) := by
  refine ⟨?_, ?_, rfl, rfl, rfl, ?_⟩
  · intro hf hl hy
    rw [cagr, if_neg]
    push_neg
    exact ⟨hy, hf, hl⟩
  · intro h
    rw [cagr, if_pos]
    tauto
  · intro hy
    rw [cagr, if_neg]
    · norm_num [Real.one_rpow]
    · push_neg
      norm_num [hy]

/-- Witness for claim C8 at concrete inputs. -/
theorem cagr_characterization_witness :
    cagr (some 100) (some 100) 5 = some 0 ∧
    cagr (some 2) (some 1) (-3) = none := by
  constructor
  · exact (cagr_characterization 100 100 5).2.2.2.2.2 (by norm_num)
  · exact (cagr_characterization 2 1 (-3)).2.1 (Or.inr (Or.inr (by norm_num)))

/-- Python `a or b` for an optional float `a`: both `None` and `0.0` are
falsy, so the default `b` is taken for either. -/
noncomputable def pyOrR (a : Option ℝ) (b : ℝ) : ℝ :=
  match a with
  | some x => if x = 0 then b else x
  | none => b

/-- Embedding of the growth-assumption resolution in `run_default_scenario`
(valuation/service.py line 15): `g_override if g_override is not None else
(eps_cagr_5y or rev_cagr_5y or eps_cagr_10y or rev_cagr_10y or 0.10)`,
parameterised by the outputs of `compute_growth_metrics`. -/
noncomputable def run_default_scenario_g
    (g_override eps_cagr_5y rev_cagr_5y eps_cagr_10y rev_cagr_10y :
      Option ℝ) : ℝ :=
  match g_override with
  | some o => o
  | none =>
      pyOrR eps_cagr_5y (pyOrR rev_cagr_5y
        (pyOrR eps_cagr_10y (pyOrR rev_cagr_10y (1 / 10))))

/-- Counterexample for claim C2 as stated: with EPS 5y CAGR present and equal
to `0.0` and revenue 5y CAGR `0.05`, the code selects `0.05`, not the first
non-`None` value `0.0` (Python `or` treats `0.0` as falsy). -/
theorem run_default_scenario_g_counterexample :
    run_default_scenario_g none (some 0) (some (5 / 100)) none none =
      5 / 100 ∧ (5 / 100 : ℝ) ≠ 0 := by
  constructor
  · norm_num [run_default_scenario_g, pyOrR]
  · norm_num

/-- Claim C2 (amended): with no override, `g` is the first value in the order
EPS 5y CAGR, revenue 5y CAGR, EPS 10y CAGR, revenue 10y CAGR that is both
non-`None` and non-zero (a `0.0` metric is skipped like a missing one), else
the default `0.10`; a non-`None` explicit override (including `0.0` or a
negative value) is always used; a non-zero (including negative) EPS 5y CAGR
is always selected. -/
theorem run_default_scenario_g_amended (o v : ℝ) (e5 r5 e10 r10 : Option ℝ) :
    run_default_scenario_g (some o) e5 r5 e10 r10 = o ∧
    (v ≠ 0 → run_default_scenario_g none (some v) r5 e10 r10 = v) ∧
    ((e5 = none ∨ e5 = some 0) → v ≠ 0 →
      run_default_scenario_g none e5 (some v) e10 r10 = v) ∧
    ((e5 = none ∨ e5 = some 0) → (r5 = none ∨ r5 = some 0) → v ≠ 0 →
      run_default_scenario_g none e5 r5 (some v) r10 = v) ∧
    ((e5 = none ∨ e5 = some 0) → (r5 = none ∨ r5 = some 0) →
      (e10 = none ∨ e10 = some 0) → v ≠ 0 →
      run_default_scenario_g none e5 r5 e10 (some v) = v) ∧
    ((e5 = none ∨ e5 = some 0) → (r5 = none ∨ r5 = some 0) →
      (e10 = none ∨ e10 = some 0) → (r10 = none ∨ r10 = some 0) →
      run_default_scenario_g none e5 r5 e10 r10 = 1 / 10) := by
  refine ⟨rfl, ?_, ?_, ?_, ?_, ?_⟩
  · intro hv
    simp [run_default_scenario_g, pyOrR, hv]
  · rintro (rfl | rfl) hv <;>
      simp [run_default_scenario_g, pyOrR, hv]
  · rintro (rfl | rfl) (rfl | rfl) hv <;>
      simp [run_default_scenario_g, pyOrR, hv]
  · rintro (rfl | rfl) (rfl | rfl) (rfl | rfl) hv <;>
      simp [run_default_scenario_g, pyOrR, hv]
  · rintro (rfl | rfl) (rfl | rfl) (rfl | rfl) (rfl | rfl) <;>
      simp [run_default_scenario_g, pyOrR]

/-- Witness for claim C2 (amended): a negative EPS 5y CAGR is selected as the
growth assumption. -/
theorem run_default_scenario_g_amended_witness :
    run_default_scenario_g none (some (-1 / 20)) (some (3 / 100)) none none =
      -1 / 20 :=
  (run_default_scenario_g_amended 0 (-1 / 20) (some (-1 / 20))
    (some (3 / 100)) none none).2.1 (by norm_num)

/-- Inputs of `sticker_and_mos` (valuation/core.py). -/
structure StickerInputs where
  eps0 : ℚ
  g : ℚ
  pe_cap : ℤ
  discount : ℚ

/-- Result record of `sticker_and_mos` (valuation/core.py). -/
structure StickerResult where
  future_eps : ℚ
  terminal_pe : ℚ
  future_price : ℚ
  sticker : ℚ
  mos_price : ℚ

/-- Embedding of `sticker_and_mos` (valuation/core.py): 10-year discounted
EPS projection with growth clamped to `[0, 0.5]` and terminal PE clamped to
`[5, pe_cap]`. -/
def sticker_and_mos (inp : StickerInputs) (mos_pct : ℚ) : StickerResult :=
  let g := max 0 (min inp.g (1 / 2))
  let future_eps := inp.eps0 * (1 + g) ^ (10 : ℕ)
  let recommended_pe := min (inp.pe_cap : ℚ) (max 5 (2 * (g * 100)))
  let future_price := future_eps * recommended_pe
  let sticker := future_price / (1 + inp.discount) ^ (10 : ℕ)
  let mos_price := sticker * (1 - mos_pct)
  ⟨future_eps, recommended_pe, future_price, sticker, mos_price⟩

/-- Counterexample for claim C5 as stated: with a negative `eps0` the sticker
price strictly decreases as growth rises, so monotonicity fails without a
sign assumption on `eps0`. -/
theorem sticker_monotone_counterexample :
    ¬((sticker_and_mos ⟨-1, 0, 20, 15 / 100⟩ (1 / 2)).sticker ≤
      (sticker_and_mos ⟨-1, 1 / 2, 20, 15 / 100⟩ (1 / 2)).sticker) := by
  dsimp only [sticker_and_mos]
  norm_num [min_def, max_def, div_le_div_iff]

/-- Claim C5 (amended): for fixed `eps0 ≥ 0`, `pe_cap ≥ 0` and any discount,
the sticker price is monotone in the growth assumption on `[0, 0.5]`, and the
growth cap makes `sticker(g = 0.6)` equal to `sticker(g = 0.5)`. -/
theorem sticker_monotone_amended (eps0 : ℚ) (pe_cap : ℤ)
    (discount mos_pct g1 g2 : ℚ) (heps : 0 ≤ eps0) (hpe : 0 ≤ pe_cap)
    (h1 : 0 ≤ g1) (h12 : g1 < g2) (h2 : g2 ≤ 1 / 2) :
    (sticker_and_mos ⟨eps0, g1, pe_cap, discount⟩ mos_pct).sticker ≤
      (sticker_and_mos ⟨eps0, g2, pe_cap, discount⟩ mos_pct).sticker ∧
    sticker_and_mos ⟨eps0, 6 / 10, pe_cap, discount⟩ mos_pct =
      sticker_and_mos ⟨eps0, 1 / 2, pe_cap, discount⟩ mos_pct := by
  constructor
  · have hg1 : g1 ≤ 1 / 2 := le_of_lt (lt_of_lt_of_le h12 h2)
    have hc1 : max 0 (min g1 (1 / 2)) = g1 := by
      rw [min_eq_left hg1, max_eq_right h1]
    have hc2 : max 0 (min g2 (1 / 2)) = g2 := by
      rw [min_eq_left h2, max_eq_right (by linarith)]
    dsimp only [sticker_and_mos]
    rw [hc1, hc2]
    have hD : (0 : ℚ) ≤ (1 + discount) ^ (10 : ℕ) := by positivity
    have hfe : eps0 * (1 + g1) ^ (10 : ℕ) ≤ eps0 * (1 + g2) ^ (10 : ℕ) :=
      mul_le_mul_of_nonneg_left
        (pow_le_pow_left (by linarith) (by linarith) 10) heps
    have hpe1 : (0 : ℚ) ≤ min (pe_cap : ℚ) (max 5 (2 * (g1 * 100))) :=
      le_min (by exact_mod_cast hpe)
        (le_trans (by norm_num) (le_max_left _ _))
    have hpemono : min (pe_cap : ℚ) (max 5 (2 * (g1 * 100))) ≤
        min (pe_cap : ℚ) (max 5 (2 * (g2 * 100))) :=
      min_le_min le_rfl (max_le_max le_rfl (by nlinarith))
    have hfe2 : (0 : ℚ) ≤ eps0 * (1 + g2) ^ (10 : ℕ) :=
      mul_nonneg heps (pow_nonneg (by linarith) 10)
    have hnum : eps0 * (1 + g1) ^ (10 : ℕ) *
        min (pe_cap : ℚ) (max 5 (2 * (g1 * 100))) ≤
        eps0 * (1 + g2) ^ (10 : ℕ) *
        min (pe_cap : ℚ) (max 5 (2 * (g2 * 100))) :=
      mul_le_mul hfe hpemono hpe1 hfe2
    rcases eq_or_lt_of_le hD with hD0 | hDpos
    · rw [← hD0, div_zero, div_zero]
    · exact (div_le_div_iff_of_pos_right hDpos).mpr hnum
  · have hc6 : max 0 (min ((6 : ℚ) / 10) (1 / 2)) = 1 / 2 := by norm_num
    have hc5 : max 0 (min ((1 : ℚ) / 2) (1 / 2)) = 1 / 2 := by norm_num
    dsimp only [sticker_and_mos]
    rw [hc6, hc5]

/-- Witness for claim C5 (amended) at concrete inputs. -/
theorem sticker_monotone_amended_witness :
    (sticker_and_mos ⟨1, 1 / 10, 20, 15 / 100⟩ (1 / 2)).sticker ≤
      (sticker_and_mos ⟨1, 2 / 10, 20, 15 / 100⟩ (1 / 2)).sticker :=
  (sticker_monotone_amended 1 20 (15 / 100) (1 / 2) (1 / 10) (2 / 10)
    (by norm_num) (by norm_num) (by norm_num) (by norm_num) (by norm_num)).1

/-- Python `a or b` for an optional rational: `None` and `0.0` are falsy. -/
def pyOrQ (a : Option ℚ) (b : ℚ) : ℚ :=
  match a with
  | some x => if x = 0 then b else x
  | none => b

/-- Embedding of `compute_margin_of_safety_recommendation`
(nlp/fourm/service.py), parameterised by the moat score, management score,
balance-sheet score and growth metrics it reads from the sub-computations. -/
def compute_margin_of_safety_recommendation
    (moat_score mgmt_score bs_score eps_cagr_5y rev_cagr_5y : Option ℚ) :
    ℚ :=
  let moat_s := pyOrQ moat_score (1 / 2)
  let mgmt_s := pyOrQ mgmt_score (1 / 2)
  let g := pyOrQ eps_cagr_5y (pyOrQ rev_cagr_5y (1 / 10))
  let base : ℚ := 1 / 2
  let adj1 := 15 / 100 - min (15 / 100) g
  let adj2 := (1 / 2 - max moat_s 0) * (2 / 10)
  let adj3 := (1 / 2 - max mgmt_s 0) * (2 / 10)
  let adj4 : ℚ :=
    match bs_score with
    | some b => (1 / 2 - b / 5) * (1 / 10)
    | none => 0
  min (7 / 10) (max (3 / 10) (base + adj1 + adj2 + adj3 + adj4))

/-- The recommended-MOS formula exactly as claim C4 words it: moat and
management scores default to `0.5` only when unavailable (`None`), and no
extra flooring of the scores is applied. -/
def claimed_mos_formula (moat_score mgmt_score bs_score : Option ℚ)
    (growth : ℚ) : ℚ :=
  min (7 / 10) (max (3 / 10)
    (1 / 2 + (15 / 100 - min (15 / 100) growth) +
      (1 / 2 - moat_score.getD (1 / 2)) * (2 / 10) +
      (1 / 2 - mgmt_score.getD (1 / 2)) * (2 / 10) +
      (match bs_score with
       | some b => (1 / 2 - b / 5) * (1 / 10)
       | none => 0)))

/-- Counterexample for claim C4 as stated: with an available moat score of
exactly `0.0` (Python falsy) the code substitutes the `0.5` default, so the
result `0.5` differs from the claimed formula's value `0.6`. -/
theorem mos_recommendation_counterexample :
    compute_margin_of_safety_recommendation (some 0) (some (1 / 2)) none
        (some (15 / 100)) none = 1 / 2 ∧
    claimed_mos_formula (some 0) (some (1 / 2)) none (15 / 100) = 3 / 5 ∧
    (1 / 2 : ℚ) ≠ 3 / 5 := by
  refine ⟨?_, ?_, by norm_num⟩
  · dsimp only [compute_margin_of_safety_recommendation, pyOrQ]
    norm_num [min_def, max_def]
  · dsimp only [claimed_mos_formula]
    norm_num [min_def, max_def]

/-- Claim C4 (amended): the recommended margin of safety always lies in
`[0.30, 0.70]`, and equals the clamp of base `0.5` plus
`(0.15 - min(0.15, growth))` plus `(0.5 - max(moat_s, 0))*0.2` plus
`(0.5 - max(mgmt_s, 0))*0.2` plus, when a balance-sheet score is available,
`(0.5 - bs_score/5)*0.1`, where `moat_s`/`mgmt_s` default to `0.5` when the
corresponding score is unavailable or exactly `0.0` (Python truthiness), and
growth resolves as EPS 5y CAGR, else revenue 5y CAGR, else `0.10`, likewise
skipping `0.0` values. -/
theorem mos_recommendation_amended
    (moat_score mgmt_score bs_score eps_cagr_5y rev_cagr_5y : Option ℚ) :
    (3 / 10 ≤ compute_margin_of_safety_recommendation moat_score mgmt_score
        bs_score eps_cagr_5y rev_cagr_5y ∧
      compute_margin_of_safety_recommendation moat_score mgmt_score bs_score
        eps_cagr_5y rev_cagr_5y ≤ 7 / 10) ∧
    compute_margin_of_safety_recommendation moat_score mgmt_score bs_score
        eps_cagr_5y rev_cagr_5y =
      min (7 / 10) (max (3 / 10)
        (1 / 2 +
          (15 / 100 -
            min (15 / 100) (pyOrQ eps_cagr_5y (pyOrQ rev_cagr_5y (1 / 10)))) +
          (1 / 2 - max (pyOrQ moat_score (1 / 2)) 0) * (2 / 10) +
          (1 / 2 - max (pyOrQ mgmt_score (1 / 2)) 0) * (2 / 10) +
          (match bs_score with
           | some b => (1 / 2 - b / 5) * (1 / 10)
           | none => 0))) := by
  refine ⟨⟨?_, ?_⟩, rfl⟩
  · dsimp only [compute_margin_of_safety_recommendation]
    exact le_min (by norm_num) (le_max_left _ _)
  · dsimp only [compute_margin_of_safety_recommendation]
    exact min_le_left _ _

/-- Python float division: raises `ZeroDivisionError` on a zero denominator,
otherwise returns the exact quotient. -/
def pydiv (a b : ℚ) : Except String ℚ :=
  if b = 0 then Except.error "ZeroDivisionError" else Except.ok (a / b)

/-- Embedding of the inner `band_score` function of `compute_management`
(nlp/fourm/service.py) on a present value: below the band divide by `low`
and scale by `0.7`; above the band decay linearly on a `2*high` scale;
inside the band score `1.0`. -/
def band_score_val (x low high : ℚ) : Except String ℚ :=
  if x < low then (pydiv x low).map (· * (7 / 10))
  else if high < x then
    (pydiv (x - high) (2 * high)).map (fun q => max 0 (1 - q))
  else Except.ok 1

/-- Embedding of `band_score` including its `None` passthrough. -/
def band_score (x : Option ℚ) (low high : ℚ) : Except String (Option ℚ) :=
  match x with
  | none => Except.ok none
  | some v => (band_score_val v low high).map some

/-- Counterexample for claim C3 as stated: below the band the code returns
`x/low * 0.7` (`0.35` at `x = 0.15` for the reinvestment band), not the
claimed ramp `x/low` (`0.5`), so the score does not reach 1 at the lower
edge; and at `x = 2*high = 1.4` the above-band decay returns `0.5`, not `0`.
-/
theorem band_score_counterexample :
    band_score_val (3 / 20) (3 / 10) (7 / 10) = Except.ok (7 / 20) ∧
    (7 / 20 : ℚ) ≠ (3 / 20) / (3 / 10) ∧
    band_score_val (14 / 10) (3 / 10) (7 / 10) = Except.ok (1 / 2) ∧
    (1 / 2 : ℚ) ≠ 0 := by
  refine ⟨?_, by norm_num, ?_, by norm_num⟩
  · rw [band_score_val, if_pos (by norm_num), pydiv, if_neg (by norm_num)]
    simp only [Except.map]
    norm_num
  · rw [band_score_val, if_neg (by norm_num), if_pos (by norm_num), pydiv,
      if_neg (by norm_num)]
    simp only [Except.map]
    norm_num [max_def]

/-- Claim C3 (amended): for a band with `0 < low ≤ high`, a value inside
`[low, high]` scores exactly `1.0`; a value above `high` scores
`max(0, 1 - (x-high)/(2*high))`, which reaches `0` at `x = 3*high` (it is
still `0.5` at `2*high`); and a value with `0 ≤ x < low` scores
`(x/low) * 0.7`, reaching only `0.7` (not 1) at the band's lower edge. -/
theorem band_score_amended (x low high : ℚ) (hlow : 0 < low)
    (hlh : low ≤ high) :
    (low ≤ x → x ≤ high → band_score_val x low high = Except.ok 1) ∧
    (high < x → band_score_val x low high =
      Except.ok (max 0 (1 - (x - high) / (2 * high)))) ∧
    band_score_val (3 * high) low high = Except.ok 0 ∧
    (0 ≤ x → x < low → band_score_val x low high =
      Except.ok (x / low * (7 / 10))) := by
  refine ⟨?_, ?_, ?_, ?_⟩
  · intro h1 h2
    rw [band_score_val, if_neg (not_lt.mpr h1), if_neg (not_lt.mpr h2)]
  · intro h
    have hhigh : (0 : ℚ) < high := lt_of_lt_of_le hlow hlh
    rw [band_score_val, if_neg (not_lt.mpr (le_trans hlh (le_of_lt h))),
      if_pos h, pydiv, if_neg (ne_of_gt (by linarith : (0 : ℚ) < 2 * high))]
    rfl
  · have hhigh : (0 : ℚ) < high := lt_of_lt_of_le hlow hlh
    have h3 : high < 3 * high := by nlinarith
    rw [band_score_val, if_neg (not_lt.mpr (le_trans hlh (le_of_lt h3))),
      if_pos h3, pydiv, if_neg (ne_of_gt (by linarith : (0 : ℚ) < 2 * high))]
    simp only [Except.map, Except.ok.injEq]
    have h2 : (2 : ℚ) * high ≠ 0 := ne_of_gt (by linarith)
    rw [show (3 : ℚ) * high - high = 2 * high by ring, div_self h2]
    norm_num
  · intro h0 hx
    rw [band_score_val, if_pos hx, pydiv, if_neg (ne_of_gt hlow)]
    rfl

/-- Witness for claim C3 (amended) on the reinvestment band `[0.3, 0.7]`. -/
theorem band_score_amended_witness :
    band_score_val (1 / 2) (3 / 10) (7 / 10) = Except.ok 1 ∧
    band_score_val (1 / 10) (3 / 10) (7 / 10) =
      Except.ok ((1 / 10) / (3 / 10) * (7 / 10)) :=
  ⟨(band_score_amended (1 / 2) (3 / 10) (7 / 10) (by norm_num)
      (by norm_num)).1 (by norm_num) (by norm_num),
   (band_score_amended (1 / 10) (3 / 10) (7 / 10) (by norm_num)
      (by norm_num)).2.2.2 (by norm_num) (by norm_num)⟩

/-- Row consumed by `compute_management` (nlp/fourm/service.py): the joined
cash-flow / income-statement fetch
`(fy, cfo, capex, buybacks, dividends, revenue)`. -/
structure CfRow where
  fy : Option ℤ
  cfo : Option ℚ
  capex : Option ℚ
  buybacks : Option ℚ
  dividends : Option ℚ
  revenue : Option ℚ

/-- Per-year item built by the first loop of `compute_management`. -/
structure MgmtYear where
  fy : ℤ
  reinvest : Option ℚ
  payout : Option ℚ

/-- The per-year loop of `compute_management`: rows without a fiscal year are
skipped; buybacks/dividends default to `0.0`; both ratios are guarded by the
truthiness test `cfo and cfo != 0`. -/
def mgmt_items (rows : List CfRow) : List MgmtYear :=
  rows.filterMap (fun r =>
    match r.fy with
    | none => none
    | some fy =>
        let bb := r.buybacks.getD 0
        let divs := r.dividends.getD 0
        let reinvest : Option ℚ :=
          match r.cfo, r.capex with
          | some cfo, some capex =>
              if cfo ≠ 0 then some (capex / cfo) else none
          | _, _ => none
        let payout : Option ℚ :=
          match r.cfo with
          | some cfo => if cfo ≠ 0 then some ((bb + divs) / cfo) else none
          | none => none
        some ⟨fy, reinvest, payout⟩)

/-- `statistics.mean` on a rational list (callers guarantee nonemptiness). -/
def listMean (l : List ℚ) : ℚ := l.sum / l.length

/-- Left-to-right evaluation of a list comprehension whose body may raise:
the first raised exception propagates, as in Python. -/
def mapExcept (f : ℚ → Except String ℚ) : List ℚ → Except String (List ℚ)
  | [] => Except.ok []
  | x :: xs =>
      match f x with
      | Except.error e => Except.error e
      | Except.ok y =>
          match mapExcept f xs with
          | Except.error e => Except.error e
          | Except.ok ys => Except.ok (y :: ys)

/-- Result record of `compute_management`. -/
structure MgmtResult where
  reinvest_avg : Option ℚ
  payout_avg : Option ℚ
  score : Option ℚ

/-- Embedding of `compute_management` (nlp/fourm/service.py): per-year
ratios, band scores for both bands (reinvestment `[0.3, 0.7]`, payout
`[0.0, 0.6]`), and the overall mean-of-means score; any `ZeroDivisionError`
raised while band-scoring propagates. -/
def compute_management (rows : List CfRow) : Except String MgmtResult :=
  let items := mgmt_items rows
  let reinvest := items.filterMap (·.reinvest)
  let payout := items.filterMap (·.payout)
  match (if reinvest.isEmpty then Except.ok [] else
      (mapExcept (fun x => band_score_val x (3 / 10) (7 / 10))
        reinvest).map (fun bs => [listMean bs])) with
  | Except.error e => Except.error e
  | Except.ok s1 =>
      match (if payout.isEmpty then Except.ok s1 else
          (mapExcept (fun x => band_score_val x 0 (6 / 10))
            payout).map (fun bs => s1 ++ [listMean bs])) with
      | Except.error e => Except.error e
      | Except.ok s2 =>
          Except.ok
            { reinvest_avg :=
                if reinvest.isEmpty then none else some (listMean reinvest)
            , payout_avg :=
                if payout.isEmpty then none else some (listMean payout)
            , score := if s2.isEmpty then none else some (listMean s2) }

/-- Claim C1 (refuted by the code — code bug): `compute_management` is NOT
raise-free: a year with a non-zero `cfo` whose payout ratio is negative
(here `cfo = -100`, `dividends = 50`, so `payout_ratio = -0.5`) falls into
the band-scoring branch `x < low` with the payout band's `low = 0.0` and
evaluates `x/0.0`, raising `ZeroDivisionError`, contrary to the spec's
guarantee that every division's denominator is checked and nothing raises. -/
theorem compute_management_raises :
    compute_management
        [⟨some 2023, some (-100), some 10, none, some 50, none⟩] =
      Except.error "ZeroDivisionError" := by
  have hitems : mgmt_items
      [⟨some 2023, some (-100), some 10, none, some 50, none⟩] =
      [⟨2023, some (10 / (-100)), some ((0 + 50) / (-100))⟩] := by
    simp [mgmt_items]
  rw [compute_management, hitems]
  have hre : band_score_val (10 / (-100)) (3 / 10) (7 / 10) =
      Except.ok ((10 / (-100)) / (3 / 10) * (7 / 10)) := by
    rw [band_score_val, if_pos (by norm_num), pydiv, if_neg (by norm_num)]
    rfl
  have hpo : band_score_val (50 / (-100)) 0 (6 / 10) =
      Except.error "ZeroDivisionError" := by
    rw [band_score_val, if_pos (by norm_num), pydiv, if_pos rfl]
    rfl
  simp [mapExcept, hre, hpo, Except.map]

/-- Embedding of the per-year ROIC computation inside `roic_series`
(metrics/compute.py): tax rate clamped to `[0, 0.35]` when `taxes` is
present and `ebit != 0`, else the default `0.21`; NOPAT over invested
capital, `None` when invested capital is zero or any required input is
absent. -/
def roic_year (ebit taxes debt equity cash : Option ℚ) : Option ℚ :=
  match ebit, equity, debt, cash with
  | some e, some eq, some d, some c =>
      let tax_rate : Option ℚ :=
        match taxes with
        | some t => if e ≠ 0 then some (max 0 (min (35 / 100) (t / |e|)))
                    else none
        | none => none
      let nopat := e * (1 - tax_rate.getD (21 / 100))
      let inv_cap := eq + d - c
      if inv_cap ≠ 0 then some (nopat / inv_cap) else none
  | _, _, _, _ => none

/-- Claim C6: with `ebit` non-zero and `taxes` present the effective tax
rate equals `clamp(taxes/|ebit|, 0, 0.35)` and always lies in `[0, 0.35]`;
otherwise (missing taxes, or zero ebit) the default `0.21` is used;
`ROIC = ebit*(1 - rate)/(equity + debt - cash)` unless invested capital is
zero, in which case the year's ROIC is `None`. -/
theorem roic_tax_rate_spec (e t d eq c : ℚ) (he : e ≠ 0) :
    (0 ≤ max 0 (min (35 / 100) (t / |e|)) ∧
      max 0 (min (35 / 100) (t / |e|)) ≤ 35 / 100) ∧
    roic_year (some e) (some t) (some d) (some eq) (some c) =
      (if eq + d - c ≠ 0
        then some (e * (1 - max 0 (min (35 / 100) (t / |e|))) / (eq + d - c))
        else none) ∧
    roic_year (some e) none (some d) (some eq) (some c) =
      (if eq + d - c ≠ 0
        then some (e * (1 - 21 / 100) / (eq + d - c))
        else none) ∧
    roic_year (some 0) (some t) (some d) (some eq) (some c) =
      (if eq + d - c ≠ 0
        then some (0 * (1 - 21 / 100) / (eq + d - c))
        else none) := by
  refine ⟨⟨le_max_left 0 _, max_le (by norm_num) (min_le_left _ _)⟩, ?_, ?_, ?_⟩
  · dsimp only [roic_year]
    rw [if_pos he]
    rfl
  · rfl
  · dsimp only [roic_year]
    have h0 : ¬((0 : ℚ) ≠ 0) := by norm_num
    rw [if_neg h0]
    rfl

/-- Witness for claim C6: an extreme ratio `taxes/|ebit| = 100` is still
clamped into `[0, 0.35]`, and the ROIC value is computed accordingly. -/
theorem roic_tax_rate_spec_witness :
    (0 ≤ max 0 (min ((35 : ℚ) / 100) (100 / |(1 : ℚ)|)) ∧
      max 0 (min ((35 : ℚ) / 100) (100 / |(1 : ℚ)|)) ≤ 35 / 100) ∧
    roic_year (some 1) (some 100) (some 1) (some 1) (some 0) =
      (if (1 : ℚ) + 1 - 0 ≠ 0
        then some (1 * (1 - max 0 (min ((35 : ℚ) / 100) (100 / |(1 : ℚ)|))) /
          (1 + 1 - 0))
        else none) :=
  ⟨(roic_tax_rate_spec 1 100 1 1 0 (by norm_num)).1,
   (roic_tax_rate_spec 1 100 1 1 0 (by norm_num)).2.1⟩

/-- Embedding of `latest_debt_to_equity` (metrics/compute.py) from the
selected latest balance-sheet row with both fields reported onward: the
Python truthiness guard `not rows[0] or not rows[1]` rejects a zero value in
either column, then a (redundant) explicit zero-equity check guards the
division. -/
def latest_debt_to_equity (row : Option (ℚ × ℚ)) : Option ℚ :=
  match row with
  | none => none
  | some (debt, equity) =>
      if debt = 0 ∨ equity = 0 then none
      else if equity = 0 then none
      else some (debt / equity)

/-- Counterexample for claim C9 as stated: with the latest row reporting
`total_debt = 0` and `shareholder_equity = 100`, the code returns `None`
(Python truthiness treats `0.0` as absent), not `0.0`. -/
theorem latest_debt_to_equity_counterexample :
    latest_debt_to_equity (some (0, 100)) = none ∧
    latest_debt_to_equity (some (0, 100)) ≠ some 0 := by
  constructor
  · rw [latest_debt_to_equity, if_pos (Or.inl rfl)]
  · rw [latest_debt_to_equity, if_pos (Or.inl rfl)]
    exact Option.noConfusion

/-- Claim C9 (amended): `latest_debt_to_equity` returns
`total_debt / shareholder_equity` from the latest row having both fields
reported only when both are non-zero; it returns `None` when the equity is
zero or absent, when the debt is zero (Python truthiness bug surface), or
when no such row exists. -/
theorem latest_debt_to_equity_amended (debt equity : ℚ) (hd : debt ≠ 0)
    (he : equity ≠ 0) :
    latest_debt_to_equity (some (debt, equity)) = some (debt / equity) ∧
    (∀ q : ℚ, latest_debt_to_equity (some (0, q)) = none) ∧
    (∀ q : ℚ, latest_debt_to_equity (some (q, 0)) = none) ∧
    latest_debt_to_equity none = none := by
  refine ⟨?_, ?_, ?_, rfl⟩
  · rw [latest_debt_to_equity, if_neg (by tauto), if_neg he]
  · intro q
    rw [latest_debt_to_equity, if_pos (Or.inl rfl)]
  · intro q
    rw [latest_debt_to_equity, if_pos (Or.inr rfl)]

/-- Witness for claim C9 (amended) at a concrete balance-sheet row. -/
theorem latest_debt_to_equity_amended_witness :
    latest_debt_to_equity (some (50, 100)) = some (50 / 100) :=
  (latest_debt_to_equity_amended 50 100 (by norm_num) (by norm_num)).1
